import Mathlib

/-!
Shallow embedding of `bmc_functions/time_series_modeling.py` (repository
BenJMcCarty/BMC_Phase_4_Project) and proofs about its time-series modeling
pipeline: `ts_split`, `auto_arima_model`, `create_best_model`,
`forecast_and_ci`, `model_performance`, `ts_modeling_workflow`, `make_dict`.

Numeric values are modelled as rationals.  Third-party library behaviour
(pmdarima's grid search, statsmodels' SARIMAX / get_forecast) is modelled
explicitly where the repository relies on its documented contract; the
repository's own code is translated line by line.
-/

set_option linter.unusedVariables false

namespace TSM

/-- A pandas Series of prices: an ordered list of rational values
(positional index). -/
abbrev Series := List ℚ

/-- A pandas DataFrame keyed by zipcode: a partial map from column name to
Series (selection by `dataframe[zipcode]`, KeyError when absent). -/
abbrev DataFrame := String → Option Series

/-- Python runtime errors that the embedded code can raise. -/
inductive PyError where
  | typeError
  | keyError
  | indexError
  | valueError
  deriving DecidableEq

/-- Returns `true` exactly on `Except.error`. -/
def isErr : Except PyError α → Bool
  | .error _ => true
  | .ok _ => false

/-- Python 3 `round` on a rational: round half to even (banker's rounding),
as used at `ts_split`'s line `round(dataframe.shape[0]*threshold)`. -/
def pyRound (x : ℚ) : ℤ :=
  let f := Int.floor x
  let frac := x - (f : ℚ)
  if frac < 1/2 then f
  else if 1/2 < frac then f + 1
  else if f % 2 = 0 then f else f + 1

/-- On integers, `pyRound` is the identity. -/
theorem pyRound_intCast (n : ℤ) : pyRound ((n : ℚ)) = n := by
  simp [pyRound, Int.floor_intCast, sub_self]

/-- Function `ts_split` (source lines 20-46): cut at `round(len * threshold)`,
train is the prefix `iloc[:cut]`, test the suffix `iloc[cut:]`.
The `show_vis` flag only triggers plotting and does not change the value. -/
def ts_split (dataframe : Series) (threshold : ℚ) (show_vis : Bool) :
    Series × Series :=
  let tts_cutoff := (pyRound ((dataframe.length : ℚ) * threshold)).toNat
  let train := dataframe.take tts_cutoff
  let test := dataframe.drop tts_cutoff
  (train, test)

/-- C2: for a non-empty series and a threshold in (0,1), `ts_split` cuts at
`round(len * threshold)`, returns the prefix/suffix at that cut, the two
lengths sum to the original length, and concatenation reconstructs the
series in order. -/
theorem ts_split_reconstructs (s : Series) (t : ℚ) (sv : Bool)
    (hne : s ≠ []) (h0 : 0 < t) (h1 : t < 1) :
    ts_split s t sv =
      (s.take (pyRound ((s.length : ℚ) * t)).toNat,
       s.drop (pyRound ((s.length : ℚ) * t)).toNat) ∧
    (ts_split s t sv).1.length + (ts_split s t sv).2.length = s.length ∧
    (ts_split s t sv).1 ++ (ts_split s t sv).2 = s := by
  refine ⟨rfl, ?_, ?_⟩
  · simp [ts_split]
    omega
  · simp [ts_split]

/-- Witness for C2 at a concrete series and threshold. -/
theorem ts_split_reconstructs_witness :
    ts_split [(1 : ℚ), 2, 3, 4] (1/2) false = ([1, 2], [3, 4]) ∧
    ([(1 : ℚ), 2, 3, 4] ≠ []) ∧
    ((0 : ℚ) < 1/2) ∧ ((1 : ℚ)/2 < 1) := by
  have h := ts_split_reconstructs [(1 : ℚ), 2, 3, 4] (1/2) false
    (by decide) (by norm_num) (by norm_num)
  refine ⟨?_, by decide, by norm_num, by norm_num⟩
  rw [h.1]
  have hc : (([(1 : ℚ), 2, 3, 4].length : ℚ) * (1/2)) = ((2 : ℤ) : ℚ) := by
    norm_num
  rw [hc, pyRound_intCast]
  rfl

/-- C4 counterexample: `ts_split` performs no input validation.  On the
empty series it returns the pair `([], [])`, and with threshold `2`
(outside `(0,1)`) it returns `([7], [])`: in both cases a `(train, test)`
pair is produced and no error is signalled. -/
theorem ts_split_no_validation_counterexample :
    ts_split ([] : Series) (85/100) false = ([], []) ∧
    ts_split [(7 : ℚ)] 2 false = ([7], []) := by
  constructor
  · simp [ts_split]
  · show (List.take (pyRound (([(7 : ℚ)].length : ℚ) * 2)).toNat [(7 : ℚ)],
      List.drop (pyRound (([(7 : ℚ)].length : ℚ) * 2)).toNat [(7 : ℚ)]) = ([7], [])
    have hc : (([(7 : ℚ)].length : ℚ) * 2) = ((2 : ℤ) : ℚ) := by norm_num
    rw [hc, pyRound_intCast]
    rfl

/-- C4 amended: `ts_split` never fails; for every series (empty included)
and every threshold (inside or outside (0,1)) it returns a `(train, test)`
pair whose concatenation is the input series. -/
theorem ts_split_total (s : Series) (t : ℚ) (sv : Bool) :
    ∃ train test, ts_split s t sv = (train, test) ∧ train ++ test = s := by
  exact ⟨_, _, rfl, by simp [ts_split]⟩

/-! ## Order selection (`auto_arima_model` and the pmdarima search) -/

/-- A candidate (p,q,P,Q) combination examined by the bounded grid search;
d, D and m are held fixed while searching. -/
structure Candidate where
  p : Nat
  q : Nat
  P : Nat
  Q : Nat
  deriving DecidableEq

/-- pmdarima's `error_action` flag: the repository passes `'ignore'`
(source line 97). -/
inductive ErrorAction where
  | ignore
  | raiseErr
  deriving DecidableEq

/-- Lowest-information-criterion candidate among those whose fit succeeds
(`fit c = none` means the fit of candidate `c` failed); `none` when every
candidate fails.  Modelled from the spec: pmdarima's bounded grid search
"selecting the combination minimizing an information criterion (e.g.,
AIC)" while "tolerating fitting failures for individual candidate orders
by skipping them" (library code, not part of this repository). -/
def bestBy (fit : Candidate → Option ℚ) : List Candidate → Option (Candidate × ℚ)
  | [] => none
  | c :: cs =>
    match fit c, bestBy fit cs with
    | some a, some (c', a') => if a ≤ a' then some (c, a) else some (c', a')
    | some a, none => some (c, a)
    | none, r => r

/-- The candidate grid: every (p,q,P,Q) with each component ranging from
its start value to its max value inclusive.  Modelled from the spec: the
"bounded stepwise/grid search over (p,q,P,Q) within caller-supplied
maxima". -/
def grid (sp mp sq mq sP mP sQ mQ : Nat) : List Candidate :=
  (List.range' sp (mp + 1 - sp)).flatMap fun p =>
    (List.range' sq (mq + 1 - sq)).flatMap fun q =>
      (List.range' sP (mP + 1 - sP)).flatMap fun P =>
        (List.range' sQ (mQ + 1 - sQ)).map fun Q => ⟨p, q, P, Q⟩

/-- Modelled from the spec: pmdarima's auto_arima search driver.  With
`error_action = 'ignore'` a candidate whose fit fails is skipped and the
search continues; a ValueError is raised only when no candidate at all
could be fit.  With `'raise'` any failing candidate aborts the search. -/
def pmdAutoArima (ea : ErrorAction) (fit : Candidate → Option ℚ)
    (cands : List Candidate) : Except PyError Candidate :=
  match ea with
  | .raiseErr =>
    if cands.all (fun c => (fit c).isSome) then
      match bestBy fit cands with
      | some (c, _) => .ok c
      | none => .error .valueError
    else .error .valueError
  | .ignore =>
    match bestBy fit cands with
    | some (c, _) => .ok c
    | none => .error .valueError

/-- Non-seasonal order (p,d,q). -/
structure NSOrder where
  p : Nat
  d : Nat
  q : Nat
  deriving DecidableEq

/-- Seasonal order (P,D,Q,m). -/
structure SOrder where
  P : Nat
  D : Nat
  Q : Nat
  m : Nat
  deriving DecidableEq

/-- The auto_arima result object, exposing `.order` and `.seasonal_order`
exactly as the repository reads them. -/
structure AutoModel where
  order : NSOrder
  seasonal_order : SOrder
  deriving DecidableEq

/-- A fitted statsmodels SARIMAX results object.  Modelled from the spec:
an opaque estimator; the fields are exactly what the repository reads from
it — the end of its training index and the per-step forecast mean and
confidence-interval bounds consumed by `get_forecast`. -/
structure FittedModel where
  lastTs : ℤ
  predMean : Nat → ℚ
  ciLower : Nat → ℚ
  ciUpper : Nat → ℚ

/-- How a model's parameters are estimated. -/
inductive EstimationMethod where
  | maximumLikelihood
  | leastSquares
  deriving DecidableEq

/-- The keyword arguments of a `tsa.SARIMAX(...)` construction.  The
statsmodels defaults are `enforce_stationarity=True` and
`enforce_invertibility=True`; a call site overrides them explicitly. -/
structure SarimaxArgs where
  data : Series
  order : NSOrder
  seasonal_order : SOrder
  enforce_stationarity : Bool := true
  enforce_invertibility : Bool := true
  deriving DecidableEq

/-- A `.fit()` call on a constructed SARIMAX model.  Modelled from the
spec/library documentation: statsmodels' `SARIMAX.fit()` estimates the
parameters by maximum likelihood. -/
structure FitCall where
  args : SarimaxArgs
  method : EstimationMethod

/-- The `.fit()` invocation as written in the source (no arguments):
maximum-likelihood estimation. -/
def sarimax_fit_call (a : SarimaxArgs) : FitCall :=
  { args := a, method := .maximumLikelihood }

/-- The statistical-library environment: the numeric outcomes that
pmdarima/statsmodels produce for a given dataset.  The embedding is
parametric in these oracles, so every theorem about the repository's
control flow holds for every environment. -/
structure Env where
  ndiffs : Series → Nat
  nsdiffs : Series → Nat → Nat
  fitCand : Series → Nat → Nat → Nat → Candidate → Option ℚ
  fit : FitCall → Except PyError FittedModel
  summary : FittedModel → String
  diag : FittedModel → String

/-- The AutoModel pmdarima returns for the winning candidate: non-seasonal
order (p, d, q) and seasonal order (P, D, Q, m), with the searched
p,q,P,Q and the fixed d, D, m. -/
def mkAutoModel (n_d n_D m : Nat) (c : Candidate) : AutoModel :=
  { order := ⟨c.p, n_d, c.q⟩, seasonal_order := ⟨c.P, n_D, c.Q, m⟩ }

/-- Function `auto_arima_model` (source lines 66-99): computes d via `ndiffs` and D
via `nsdiffs`, then runs pmdarima's bounded grid search over (p,q,P,Q)
with `d = n_d, D = n_D, error_action = 'ignore'`. -/
def auto_arima_model (env : Env) (timeseries_dataset : Series)
    (m sp mp sq mq sP sQ mP mQ : Nat) : Except PyError AutoModel :=
  let n_d := env.ndiffs timeseries_dataset
  let n_D := env.nsdiffs timeseries_dataset m
  (pmdAutoArima .ignore (env.fitCand timeseries_dataset m n_d n_D)
      (grid sp mp sq mq sP mP sQ mQ)).map (mkAutoModel n_d n_D m)

/-- The default search bounds of one entry point's signature. -/
structure SearchDefaults where
  m : Nat
  start_p : Nat
  max_p : Nat
  start_q : Nat
  max_q : Nat
  start_P : Nat
  start_Q : Nat
  max_P : Nat
  max_Q : Nat
  deriving DecidableEq

/-- Default arguments of `auto_arima_model`'s signature (source lines
66-68). -/
def auto_arima_model_defaults : SearchDefaults :=
  { m := 12, start_p := 0, max_p := 7, start_q := 0, max_q := 7,
    start_P := 0, start_Q := 0, max_P := 7, max_Q := 7 }

/-- Default arguments of `create_best_model`'s signature (source lines
103-105). -/
def create_best_model_defaults : SearchDefaults :=
  { m := 12, start_p := 0, max_p := 5, start_q := 0, max_q := 5,
    start_P := 0, start_Q := 0, max_P := 5, max_Q := 5 }

/-- Removing a failing candidate does not change the search outcome. -/
theorem bestBy_skip (fit : Candidate → Option ℚ) (l1 l2 : List Candidate)
    (c : Candidate) (hc : fit c = none) :
    bestBy fit (l1 ++ c :: l2) = bestBy fit (l1 ++ l2) := by
  induction l1 with
  | nil => simp [bestBy, hc]
  | cons c1 t ih =>
    simp only [List.cons_append, bestBy, List.append_eq, ih]

/-- If every candidate fails, the search yields nothing. -/
theorem bestBy_eq_none (fit : Candidate → Option ℚ) (l : List Candidate)
    (h : bestBy fit l = none) : ∀ c ∈ l, fit c = none := by
  induction l with
  | nil => intro c hc; cases hc
  | cons c1 t ih =>
    intro c hc
    rw [bestBy] at h
    cases hfc : fit c1 with
    | some a =>
      cases hbt : bestBy fit t with
      | none => simp only [hfc, hbt] at h; exact Option.noConfusion h
      | some p =>
        rcases p with ⟨c2, a2⟩
        simp only [hfc, hbt] at h
        split at h <;> exact Option.noConfusion h
    | none =>
      simp only [hfc] at h
      rcases List.mem_cons.mp hc with rfl | hmem
      · exact hfc
      · exact ih h c hmem

/-- A successful candidate somewhere in the list guarantees the search
returns a result. -/
theorem bestBy_isSome_of_mem (fit : Candidate → Option ℚ)
    (l : List Candidate) (c : Candidate) (hm : c ∈ l)
    (hs : (fit c).isSome = true) : (bestBy fit l).isSome = true := by
  cases hb : bestBy fit l with
  | some p => rfl
  | none => rw [bestBy_eq_none fit l hb c hm] at hs; cases hs

/-- The search returns a member of the candidate list whose
information-criterion value is minimal among all successfully fit
candidates. -/
theorem bestBy_min (fit : Candidate → Option ℚ) (l : List Candidate)
    (c : Candidate) (a : ℚ) (h : bestBy fit l = some (c, a)) :
    c ∈ l ∧ fit c = some a ∧
      ∀ c' ∈ l, ∀ a', fit c' = some a' → a ≤ a' := by
  induction l generalizing c a with
  | nil => rw [bestBy] at h; cases h
  | cons c1 t ih =>
    rw [bestBy] at h
    cases hfc : fit c1 with
    | none =>
      simp only [hfc] at h
      obtain ⟨hmem, hfit, hmin⟩ := ih _ _ h
      refine ⟨List.mem_cons_of_mem _ hmem, hfit, ?_⟩
      intro c' hc' a' hfa'
      rcases List.mem_cons.mp hc' with rfl | hmem'
      · rw [hfc] at hfa'; cases hfa'
      · exact hmin c' hmem' a' hfa'
    | some a1 =>
      cases hbt : bestBy fit t with
      | none =>
        simp only [hfc, hbt] at h
        obtain ⟨rfl, rfl⟩ : c1 = c ∧ a1 = a := by simpa using h
        refine ⟨List.mem_cons_self _ _, hfc, ?_⟩
        intro c' hc' a' hfa'
        rcases List.mem_cons.mp hc' with rfl | hmem'
        · rw [hfc] at hfa'; injection hfa' with ha''; rw [ha'']
        · rw [bestBy_eq_none fit t hbt c' hmem'] at hfa'; cases hfa'
      | some p =>
        rcases p with ⟨c2, a2⟩
        simp only [hfc, hbt] at h
        obtain ⟨hmem2, hfit2, hmin2⟩ := ih _ _ hbt
        by_cases hle : a1 ≤ a2
        · rw [if_pos hle] at h
          obtain ⟨rfl, rfl⟩ : c1 = c ∧ a1 = a := by simpa using h
          refine ⟨List.mem_cons_self _ _, hfc, ?_⟩
          intro c' hc' a' hfa'
          rcases List.mem_cons.mp hc' with rfl | hmem'
          · rw [hfc] at hfa'; injection hfa' with ha''; rw [ha'']
          · exact le_trans hle (hmin2 c' hmem' a' hfa')
        · rw [if_neg hle] at h
          obtain ⟨rfl, rfl⟩ : c2 = c ∧ a2 = a := by simpa using h
          refine ⟨List.mem_cons_of_mem _ hmem2, hfit2, ?_⟩
          intro c' hc' a' hfa'
          rcases List.mem_cons.mp hc' with rfl | hmem'
          · rw [hfc] at hfa'
            injection hfa' with ha''
            subst ha''
            exact le_of_not_le hle
          · exact hmin2 c' hmem' a' hfa'

/-- C7: with `error_action='ignore'` (as the repository hard-codes at line
97), a candidate whose fit fails is skipped: the search over a list
containing the failing candidate equals the search over the list with
that candidate removed, a failing candidate never aborts the search (a
model is still returned whenever any remaining candidate fits), and
`auto_arima_model` runs exactly this search in 'ignore' mode. -/
theorem auto_arima_search_skips_failures
    (fit : Candidate → Option ℚ) (l1 l2 : List Candidate) (c : Candidate)
    (hc : fit c = none)
    (env : Env) (ds : Series) (m sp mp sq mq sP sQ mP mQ : Nat) :
    pmdAutoArima .ignore fit (l1 ++ c :: l2) =
      pmdAutoArima .ignore fit (l1 ++ l2) ∧
    ((∃ c' ∈ l1 ++ l2, (fit c').isSome = true) →
      ∃ cb, pmdAutoArima .ignore fit (l1 ++ c :: l2) = .ok cb) ∧
    auto_arima_model env ds m sp mp sq mq sP sQ mP mQ =
      (pmdAutoArima .ignore
          (env.fitCand ds m (env.ndiffs ds) (env.nsdiffs ds m))
          (grid sp mp sq mq sP mP sQ mQ)).map
        (mkAutoModel (env.ndiffs ds) (env.nsdiffs ds m) m) := by
  have hskip := bestBy_skip fit l1 l2 c hc
  refine ⟨by rw [pmdAutoArima, pmdAutoArima, hskip], ?_, rfl⟩
  rintro ⟨c', hc', hs⟩
  have : (bestBy fit (l1 ++ c :: l2)).isSome = true := by
    rw [hskip]
    exact bestBy_isSome_of_mem fit (l1 ++ l2) c' hc' hs
  rw [pmdAutoArima]
  cases hb : bestBy fit (l1 ++ c :: l2) with
  | none => rw [hb] at this; cases this
  | some p =>
    rcases p with ⟨cb, ab⟩
    exact ⟨cb, rfl⟩

/-- Failing candidate used by the witnesses. -/
def cFail : Candidate := ⟨0, 0, 0, 0⟩

/-- Succeeding candidate used by the witnesses. -/
def cOk : Candidate := ⟨1, 0, 0, 0⟩

/-- Fit oracle for the witnesses: candidates with p = 0 fail to fit. -/
def exFit : Candidate → Option ℚ :=
  fun c => if c.p = 0 then none else some ((c.p : ℚ))

/-- Fitted model used by the witnesses. -/
def exModel : FittedModel :=
  { lastTs := 10, predMean := fun _ => 100,
    ciLower := fun _ => 90, ciUpper := fun _ => 110 }

/-- Concrete library environment used by the witnesses. -/
def exEnv : Env :=
  { ndiffs := fun _ => 1
    nsdiffs := fun _ _ => 1
    fitCand := fun _ _ _ _ c => exFit c
    fit := fun _ => .ok exModel
    summary := fun _ => "model summary"
    diag := fun _ => "model diagnostics" }

/-- Witness for C7 at a concrete fit oracle and candidate list. -/
theorem auto_arima_search_skips_failures_witness :
    (pmdAutoArima .ignore exFit ([] ++ cFail :: [cOk]) =
      pmdAutoArima .ignore exFit ([] ++ [cOk])) ∧
    (∃ cb, pmdAutoArima .ignore exFit ([] ++ cFail :: [cOk]) = .ok cb) := by
  have h := auto_arima_search_skips_failures exFit [] [cOk] cFail rfl
    exEnv [] 12 0 7 0 7 0 0 7 7
  exact ⟨h.1, h.2.1 ⟨cOk, by simp, rfl⟩⟩

/-- C8: the two order-search entry points use different default grid
maxima — `auto_arima_model` defaults `max_p`, `max_q`, `max_P`, `max_Q`
to 7, `create_best_model` defaults them to 5, both starting from 0; the
search yields the candidate minimizing the information criterion; and the
order returned by `auto_arima_model` always carries the fixed
`d = ndiffs(series)` and `D = nsdiffs(series, m)`. -/
theorem search_defaults_and_minimality :
    (auto_arima_model_defaults.max_p = 7 ∧
     auto_arima_model_defaults.max_q = 7 ∧
     auto_arima_model_defaults.max_P = 7 ∧
     auto_arima_model_defaults.max_Q = 7 ∧
     auto_arima_model_defaults.start_p = 0 ∧
     auto_arima_model_defaults.start_q = 0 ∧
     auto_arima_model_defaults.start_P = 0 ∧
     auto_arima_model_defaults.start_Q = 0) ∧
    (create_best_model_defaults.max_p = 5 ∧
     create_best_model_defaults.max_q = 5 ∧
     create_best_model_defaults.max_P = 5 ∧
     create_best_model_defaults.max_Q = 5 ∧
     create_best_model_defaults.start_p = 0 ∧
     create_best_model_defaults.start_q = 0 ∧
     create_best_model_defaults.start_P = 0 ∧
     create_best_model_defaults.start_Q = 0) ∧
    (∀ (fit : Candidate → Option ℚ) (l : List Candidate) (c : Candidate)
        (a : ℚ), bestBy fit l = some (c, a) →
      c ∈ l ∧ fit c = some a ∧
        ∀ c' ∈ l, ∀ a', fit c' = some a' → a ≤ a') ∧
    (∀ (env : Env) (ds : Series) (m sp mp sq mq sP sQ mP mQ : Nat)
        (am : AutoModel),
      auto_arima_model env ds m sp mp sq mq sP sQ mP mQ = .ok am →
      am.order.d = env.ndiffs ds ∧
        am.seasonal_order.D = env.nsdiffs ds m) := by
  refine ⟨⟨rfl, rfl, rfl, rfl, rfl, rfl, rfl, rfl⟩,
    ⟨rfl, rfl, rfl, rfl, rfl, rfl, rfl, rfl⟩, bestBy_min, ?_⟩
  intro env ds m sp mp sq mq sP sQ mP mQ am h
  rw [auto_arima_model] at h
  cases hp : pmdAutoArima .ignore
      (env.fitCand ds m (env.ndiffs ds) (env.nsdiffs ds m))
      (grid sp mp sq mq sP mP sQ mQ) with
  | error e => rw [hp] at h; cases h
  | ok cb =>
    rw [hp] at h
    injection h with h'
    subst h'
    exact ⟨rfl, rfl⟩

/-- The auto_arima result at the witness environment. -/
def exAm : AutoModel := { order := ⟨1, 1, 0⟩, seasonal_order := ⟨0, 1, 0, 12⟩ }

/-- Witness for C8 at a concrete fit oracle, candidate list and
environment. -/
theorem search_defaults_and_minimality_witness :
    (cOk ∈ [cFail, cOk] ∧ exFit cOk = some ((1 : ℕ) : ℚ) ∧
      ∀ c' ∈ [cFail, cOk], ∀ a', exFit c' = some a' → ((1 : ℕ) : ℚ) ≤ a') ∧
    (exAm.order.d = exEnv.ndiffs [] ∧
      exAm.seasonal_order.D = exEnv.nsdiffs [] 12) := by
  have h := search_defaults_and_minimality
  exact ⟨h.2.2.1 exFit [cFail, cOk] cOk ((1 : ℕ) : ℚ) rfl,
    h.2.2.2 exEnv [] 12 0 1 0 0 0 0 0 0 exAm rfl⟩

/-! ## Forecasting (`forecast_and_ci`) and ROI -/

/-- One row of the forecast frame built by `forecast_and_ci`: a future
timestamp with the columns 'Lower CI', 'Upper CI', 'Forecast' (the
source's column positions 0, 1, 2). -/
structure FRow where
  ts : ℤ
  lower : ℚ
  upper : ℚ
  fcast : ℚ
  deriving DecidableEq

/-- Modelled from the spec: statsmodels' `get_forecast(steps)` on a fitted
model (library code, not part of this repository) — per-step point
forecasts and confidence-interval bounds "at future timestamps contiguous
with the model's training index". -/
def get_forecast (mdl : FittedModel) (steps : Nat) : List FRow :=
  (List.range steps).map fun (i : Nat) =>
    { ts := mdl.lastTs + 1 + (i : ℤ), lower := mdl.ciLower i,
      upper := mdl.ciUpper i, fcast := mdl.predMean i }

/-- Function `forecast_and_ci` (source lines 150-166): with test data the horizon
is `len(test_data)`; without test data it is `12 * n_yrs_future` (a
TypeError from `12*None` when `n_yrs_future` is also absent).  The frame
carries the columns Lower CI, Upper CI, Forecast. -/
def forecast_and_ci (model : FittedModel) (test_data : Option Series)
    (n_yrs_future : Option Nat) : Except PyError (List FRow) :=
  match test_data with
  | none =>
    match n_yrs_future with
    | none => .error .typeError
    | some k => .ok (get_forecast model (12 * k))
  | some td => .ok (get_forecast model td.length)

/-- The forecast frame has exactly `steps` rows. -/
theorem get_forecast_length (mdl : FittedModel) (n : Nat) :
    (get_forecast mdl n).length = n := by
  simp [get_forecast]

/-- The forecast timestamps are `lastTs + 1, lastTs + 2, ...`. -/
theorem get_forecast_ts (mdl : FittedModel) (n : Nat) :
    (get_forecast mdl n).map FRow.ts =
      (List.range n).map (fun (i : Nat) => mdl.lastTs + 1 + (i : ℤ)) := by
  simp [get_forecast, List.map_map]

/-- The forecast timestamps are strictly increasing. -/
theorem get_forecast_ts_pairwise (mdl : FittedModel) (n : Nat) :
    ((get_forecast mdl n).map FRow.ts).Pairwise (· < ·) := by
  rw [get_forecast_ts]
  refine List.Pairwise.map _ ?_ (List.pairwise_lt_range n)
  intro a b hab
  omega

/-- A non-empty forecast starts right after the last training timestamp. -/
theorem get_forecast_head (mdl : FittedModel) (n : Nat) (hn : 0 < n) :
    (get_forecast mdl n).head?.map FRow.ts = some (mdl.lastTs + 1) := by
  cases n with
  | zero => cases hn
  | succ n => simp [get_forecast, List.range_succ_eq_map]

/-- C5: `forecast_and_ci` produces a frame with exactly `horizon` rows —
`len(test_data)` in validation mode, `12 * n_yrs_future` in
future-projection mode — with strictly increasing future timestamps
continuing directly from the model's last training timestamp. -/
theorem forecast_and_ci_horizon (mdl : FittedModel) (td : Series) (k : Nat) :
    (∃ df, forecast_and_ci mdl (some td) none = .ok df ∧
      df.length = td.length ∧
      df.map FRow.ts =
        (List.range td.length).map (fun (i : Nat) => mdl.lastTs + 1 + (i : ℤ)) ∧
      (df.map FRow.ts).Pairwise (· < ·) ∧
      (0 < td.length → df.head?.map FRow.ts = some (mdl.lastTs + 1))) ∧
    (∃ df, forecast_and_ci mdl none (some k) = .ok df ∧
      df.length = 12 * k ∧
      df.map FRow.ts =
        (List.range (12 * k)).map (fun (i : Nat) => mdl.lastTs + 1 + (i : ℤ)) ∧
      (df.map FRow.ts).Pairwise (· < ·) ∧
      (0 < k → df.head?.map FRow.ts = some (mdl.lastTs + 1))) := by
  constructor
  · exact ⟨get_forecast mdl td.length, rfl, get_forecast_length mdl td.length,
      get_forecast_ts mdl td.length, get_forecast_ts_pairwise mdl td.length,
      fun h => get_forecast_head mdl td.length h⟩
  · exact ⟨get_forecast mdl (12 * k), rfl, get_forecast_length mdl (12 * k),
      get_forecast_ts mdl (12 * k), get_forecast_ts_pairwise mdl (12 * k),
      fun h => get_forecast_head mdl (12 * k) (by omega)⟩

/-- Witness for C5 at a concrete model and test series. -/
theorem forecast_and_ci_horizon_witness :
    ∃ df, forecast_and_ci exModel (some [(1 : ℚ), 2, 3]) none = .ok df ∧
      df.length = 3 ∧ df.head?.map FRow.ts = some 11 := by
  obtain ⟨df, h1, h2, h3, h4, h5⟩ :=
    (forecast_and_ci_horizon exModel [(1 : ℚ), 2, 3] 1).1
  refine ⟨df, h1, h2, ?_⟩
  rw [h5 (by norm_num)]
  norm_num [exModel]

/-- One ROI row: `(value - investment_cost)/investment_cost*100` applied
to every column (source line 269). -/
def roiRow (investment_cost : ℚ) (r : FRow) : FRow :=
  ⟨r.ts, (r.lower - investment_cost) / investment_cost * 100,
    (r.upper - investment_cost) / investment_cost * 100,
    (r.fcast - investment_cost) / investment_cost * 100⟩

/-- The workflow's ROI frame (source lines 267-269): the investment cost
is `forecast_full.iloc[0, 2]` — row 0 of column position 2, the first
value of the Forecast column — and every column of the frame is
normalized against this single cost. -/
def roiFrame (forecast_full : List FRow) : List FRow :=
  match forecast_full with
  | [] => []
  | r0 :: _ => forecast_full.map (roiRow r0.fcast)

/-- C3 counterexample: on the non-degenerate forecast frame whose first
row has (Lower CI, Upper CI, Forecast) = (90, 110, 100), the first entry
of the ROI frame in the Lower CI column is -10, not 0: the code
normalizes every column against the first Forecast value, not against
each column's own first value. -/
theorem roi_first_entry_counterexample :
    (roiFrame [⟨0, 90, 110, 100⟩, ⟨1, 95, 125, 105⟩]).head?.map FRow.lower =
      some (-10) ∧
    ((-10 : ℚ) ≠ 0) ∧
    ([⟨0, 90, 110, 100⟩, (⟨1, 95, 125, 105⟩ : FRow)]).head?.map FRow.fcast =
      some 100 ∧ ((100 : ℚ) ≠ 0) := by
  refine ⟨?_, by norm_num, rfl, by norm_num⟩
  simp only [roiFrame, roiRow, List.map_cons, List.head?_cons,
    Option.map_some']
  norm_num

/-- C3 amended: the ROI frame normalizes all three columns against the
first Forecast value (the investment cost).  For a non-degenerate frame
the Forecast column's first ROI entry is therefore exactly 0, while the
first entries of the Lower/Upper CI columns are `(value - cost)/cost*100`
of their own first values, which need not be 0; the frame keeps its
index. -/
theorem roiFrame_first_entries (r0 : FRow) (rest : List FRow)
    (h : r0.fcast ≠ 0) :
    (roiFrame (r0 :: rest)).head?.map FRow.fcast = some 0 ∧
    (roiFrame (r0 :: rest)).head?.map FRow.lower =
      some ((r0.lower - r0.fcast) / r0.fcast * 100) ∧
    (roiFrame (r0 :: rest)).head?.map FRow.upper =
      some ((r0.upper - r0.fcast) / r0.fcast * 100) ∧
    (roiFrame (r0 :: rest)).length = (r0 :: rest).length := by
  refine ⟨?_, ?_, ?_, by simp [roiFrame]⟩
  · simp [roiFrame, roiRow, sub_self]
  · simp [roiFrame, roiRow]
  · simp [roiFrame, roiRow]

/-- Witness for C3's amended statement at a concrete frame. -/
theorem roiFrame_first_entries_witness :
    (roiFrame [⟨0, 95, 105, 100⟩]).head?.map FRow.fcast = some 0 ∧
    ((⟨0, 95, 105, 100⟩ : FRow).fcast ≠ 0) ∧
    (roiFrame [(⟨0, 95, 105, 100⟩ : FRow)]).length = 1 := by
  have h := roiFrame_first_entries ⟨0, 95, 105, 100⟩ []
    (by show (100 : ℚ) ≠ 0; norm_num)
  exact ⟨h.1, by show (100 : ℚ) ≠ 0; norm_num, h.2.2.2⟩

/-! ## `create_best_model`, the SARIMAX constructions, workflow, packaging -/

/-- The parameter names of `auto_arima_model`'s signature (source lines
66-68). -/
def auto_arima_model_param_names : List String :=
  ["timeseries_dataset", "m", "start_p", "max_p", "start_q", "max_q",
   "start_P", "start_Q", "max_P", "max_Q"]

/-- The keyword-argument names `create_best_model` passes to
`auto_arima_model` at source lines 132-137 (`timeseries_dataset` is
passed positionally). -/
def create_best_model_call_kwargs : List String :=
  ["m", "start_p", "max_p", "start_q", "max_q", "start_P", "start_Q",
   "max_P", "max_Q", "n_d", "n_D", "error_action"]

/-- Python call binding: a call raises a TypeError ("got an unexpected
keyword argument") before the callee's body runs when some keyword
argument is not a parameter of the callee's signature. -/
def bindKwargs (params kwargs : List String) : Except PyError Unit :=
  if kwargs.all (fun k => params.contains k) then .ok () else .error .typeError

/-- The kwargs of `create_best_model`'s call do not bind against
`auto_arima_model`'s signature: `n_d`, `n_D` and `error_action` are not
parameters. -/
theorem bindKwargs_cbm :
    bindKwargs auto_arima_model_param_names create_best_model_call_kwargs =
      .error .typeError := by
  rfl

/-- Pipeline events recorded by the embedded workflow: a final-model
SARIMAX fit, a forecast stage, the ROI stage and the packaging stage. -/
inductive Event where
  | fitModel
  | forecastStage
  | roiStage
  | packageStage
  deriving DecidableEq

/-- The `tsa.SARIMAX(...)` construction inside `create_best_model`
(source lines 139-141): order and seasonal order from the auto_arima
result, `enforce_invertibility=False`, everything else at library
defaults. -/
def cbm_sarimax_args (timeseries_dataset : Series) (auto : AutoModel) :
    SarimaxArgs :=
  { data := timeseries_dataset, order := auto.order,
    seasonal_order := auto.seasonal_order, enforce_invertibility := false }

/-- The `tsa.SARIMAX(...)` full-series refit inside `ts_modeling_workflow`
(source lines 254-256): identical shape, applied to the whole series. -/
def workflow_sarimax_args (zipcode_val : Series) (auto : AutoModel) :
    SarimaxArgs :=
  { data := zipcode_val, order := auto.order,
    seasonal_order := auto.seasonal_order, enforce_invertibility := false }

/-- Function `model_performance` (source lines 49-63): returns the model summary
and a diagnostics figure; `show_vis` only triggers display. -/
def model_performance (env : Env) (ts_model : FittedModel)
    (show_vis : Bool) : String × String :=
  (env.summary ts_model, env.diag ts_model)

/-- Function `create_best_model` (source lines 103-147): computes d and D, then
calls `auto_arima_model` with the keyword arguments `n_d`, `n_D` and
`error_action`, none of which is a parameter of `auto_arima_model`'s
signature — Python raises a TypeError at the call, before any model is
fitted.  The (unreachable) remainder would fit a SARIMAX with the
selected orders and `enforce_invertibility=False`.  The second component
records the model-fit events that occurred. -/
def create_best_model (env : Env) (timeseries_dataset : Series)
    (m sp mp sq mq sP sQ mP mQ : Nat) (show_vis : Bool) :
    Except PyError (AutoModel × FittedModel) × List Event :=
  let n_d := env.ndiffs timeseries_dataset
  let n_D := env.nsdiffs timeseries_dataset m
  match bindKwargs auto_arima_model_param_names
      create_best_model_call_kwargs with
  | .error e => (.error e, [])
  | .ok _ =>
    match auto_arima_model env timeseries_dataset m sp mp sq mq sP sQ mP mQ with
    | .error e => (.error e, [])
    | .ok auto_model_best =>
      match env.fit (sarimax_fit_call
          (cbm_sarimax_args timeseries_dataset auto_model_best)) with
      | .error e => (.error e, [])
      | .ok best_model => (.ok (auto_model_best, best_model), [.fitModel])

/-- Abstract figure token returned by `plot_forecast_ttf` (source lines
169-190); plotting does not change computed data. -/
def plot_forecast_ttf_fig : String := "training-testing-forecast figure"

/-- Abstract figure token returned by `plot_forecast_final` (source lines
193-215). -/
def plot_forecast_final_fig : String := "final forecast figure"

/-- The eight values a successful `ts_modeling_workflow` run would return
(source line 278). -/
structure WorkflowOut where
  forecast_full : List FRow
  roi_final : FRow
  summary_train : String
  diag_train : String
  summary_full : String
  diag_full : String
  training_frcst : String
  final_frcst : String
  deriving DecidableEq

/-- The stages of `ts_modeling_workflow` after `create_best_model`
(source lines 244-278): train-model summary/diagnostics, validation
forecast against the test data, full-series refit, future forecast
(`12 * n_yrs_future` steps), ROI frame and final ROI row (the ROI frame's
last row).  The second component lists the stage events that ran. -/
def ts_workflow_post (env : Env) (zipcode_val train test : Series)
    (auto_model_train : AutoModel) (best_model_train : FittedModel)
    (n_yrs_future : Nat) : Except PyError WorkflowOut × List Event :=
  let (summary_train, diag_train) :=
    model_performance env best_model_train false
  match forecast_and_ci best_model_train (some test) none with
  | .error e => (.error e, [])
  | .ok _forecast_train =>
    match env.fit (sarimax_fit_call
        (workflow_sarimax_args zipcode_val auto_model_train)) with
    | .error e => (.error e, [.forecastStage])
    | .ok best_model_full =>
      let (summary_full, diag_full) :=
        model_performance env best_model_full false
      match forecast_and_ci best_model_full none (some n_yrs_future) with
      | .error e => (.error e, [.forecastStage, .fitModel])
      | .ok forecast_full =>
        match forecast_full with
        | [] => (.error .indexError, [.forecastStage, .fitModel, .forecastStage])
        | _r0 :: _ =>
          let roi_df := roiFrame forecast_full
          let roi_final := roi_df.getLastD ⟨0, 0, 0, 0⟩
          (.ok { forecast_full := forecast_full, roi_final := roi_final,
                 summary_train := summary_train, diag_train := diag_train,
                 summary_full := summary_full, diag_full := diag_full,
                 training_frcst := plot_forecast_ttf_fig,
                 final_frcst := plot_forecast_final_fig },
           [.forecastStage, .fitModel, .forecastStage, .roiStage])

/-- Function `ts_modeling_workflow` (source lines 220-278): selects the zipcode
column (KeyError when absent), splits it, calls `create_best_model` with
that function's default search bounds, and — were that call to succeed —
would run the remaining stages. -/
def ts_modeling_workflow (env : Env) (dataframe : DataFrame)
    (zipcode : String) (threshold : ℚ) (m n_yrs_past n_yrs_future : Nat)
    (show_vis : Bool) : Except PyError WorkflowOut × List Event :=
  match dataframe zipcode with
  | none => (.error .keyError, [])
  | some zipcode_val =>
    let (train, test) := ts_split zipcode_val threshold show_vis
    match create_best_model env train m
        create_best_model_defaults.start_p create_best_model_defaults.max_p
        create_best_model_defaults.start_q create_best_model_defaults.max_q
        create_best_model_defaults.start_P create_best_model_defaults.start_Q
        create_best_model_defaults.max_P create_best_model_defaults.max_Q
        false with
    | (.error e, evs) => (.error e, evs)
    | (.ok (auto_model_train, best_model_train), evs) =>
      let (r, evs2) := ts_workflow_post env zipcode_val train test
        auto_model_train best_model_train n_yrs_future
      (r, evs ++ evs2)

/-- The dictionary `make_dict` assembles (source lines 280-300), as a
typed record; `model_metrics` lists the (key, summary, diagnostics)
entries in insertion order. -/
structure Bundle where
  forecasted_prices : List FRow
  roi : FRow
  model_metrics : List (String × String × String)
  model_visuals : List (String × String)
  deriving DecidableEq

/-- The packaging step of `make_dict` (source lines 290-298): how a
successful workflow tuple is placed into the result dictionary. -/
def make_dict_package (out : WorkflowOut) : Bundle :=
  { forecasted_prices := out.forecast_full
    roi := out.roi_final
    model_metrics := [("train", out.summary_train, out.diag_train),
                      ("full", out.summary_full, out.diag_full)]
    model_visuals := [("train", out.training_frcst),
                      ("full", out.final_frcst)] }

/-- Function `make_dict` (source lines 280-300): runs the workflow with its
default threshold .85 and year counts (5 past, 2 future), then packages
the result. -/
def make_dict (env : Env) (dataframe : DataFrame) (zipcode : String)
    (m : Nat) (show_vis : Bool) : Except PyError Bundle × List Event :=
  match ts_modeling_workflow env dataframe zipcode (85/100) m 5 2 show_vis with
  | (.error e, evs) => (.error e, evs)
  | (.ok out, evs) => (.ok (make_dict_package out), evs ++ [.packageStage])

/-- Every call to `create_best_model` fails with a TypeError at the `auto_arima_model`
call, for every environment and every arguments, with no model fitted. -/
theorem create_best_model_eq (env : Env) (ds : Series)
    (m sp mp sq mq sP sQ mP mQ : Nat) (sv : Bool) :
    create_best_model env ds m sp mp sq mq sP sQ mP mQ sv =
      (.error .typeError, []) := by
  unfold create_best_model
  rw [bindKwargs_cbm]

/-- C1: for every input dataset and every choice of arguments,
`create_best_model` raises a TypeError before any model is fitted — its
call to `auto_arima_model` passes the keyword arguments `n_d`, `n_D` and
`error_action`, none of which is a parameter of `auto_arima_model`'s
signature.  Consequently `ts_modeling_workflow` always fails with no
forecast, ROI or packaging event recorded, and `make_dict` never reaches
its packaging stage. -/
theorem create_best_model_always_typeerror
    (env : Env) (ds : Series) (m sp mp sq mq sP sQ mP mQ : Nat) (sv : Bool)
    (df : DataFrame) (z : String) (t : ℚ) (m2 nyp nyf : Nat) (sv2 : Bool) :
    create_best_model env ds m sp mp sq mq sP sQ mP mQ sv =
      (.error .typeError, []) ∧
    isErr (ts_modeling_workflow env df z t m2 nyp nyf sv2).1 = true ∧
    (ts_modeling_workflow env df z t m2 nyp nyf sv2).2 = [] ∧
    isErr (make_dict env df z m2 sv2).1 = true ∧
    (make_dict env df z m2 sv2).2 = [] := by
  refine ⟨create_best_model_eq env ds m sp mp sq mq sP sQ mP mQ sv, ?_⟩
  cases hz : df z with
  | none =>
    refine ⟨?_, ?_, ?_, ?_⟩ <;>
      simp [ts_modeling_workflow, make_dict, hz, isErr]
  | some zv =>
    refine ⟨?_, ?_, ?_, ?_⟩ <;>
      simp [ts_modeling_workflow, make_dict, hz, create_best_model_eq,
        isErr, ts_split]

/-- C6: both SARIMAX constructions — the train-only fit inside
`create_best_model` and the full-series refit inside
`ts_modeling_workflow` — disable the invertibility enforcement on the
seasonal moving-average polynomial, take the non-seasonal (p,d,q) and
seasonal (P,D,Q,m) orders from the order-selection result, and are
fitted by maximum likelihood. -/
theorem sarimax_construction (ds zv : Series) (auto : AutoModel) :
    (cbm_sarimax_args ds auto).enforce_invertibility = false ∧
    (cbm_sarimax_args ds auto).order = auto.order ∧
    (cbm_sarimax_args ds auto).seasonal_order = auto.seasonal_order ∧
    (workflow_sarimax_args zv auto).enforce_invertibility = false ∧
    (workflow_sarimax_args zv auto).order = auto.order ∧
    (workflow_sarimax_args zv auto).seasonal_order = auto.seasonal_order ∧
    (sarimax_fit_call (cbm_sarimax_args ds auto)).method =
      EstimationMethod.maximumLikelihood ∧
    (sarimax_fit_call (workflow_sarimax_args zv auto)).method =
      EstimationMethod.maximumLikelihood := by
  exact ⟨rfl, rfl, rfl, rfl, rfl, rfl, rfl, rfl⟩

/-- C9: the `show_vis` flag changes no computed result: two workflow
invocations on the same inputs differing only in `show_vis` return
identical outcomes and identical event logs. -/
theorem workflow_show_vis_irrelevant (env : Env) (df : DataFrame)
    (z : String) (t : ℚ) (m nyp nyf : Nat) :
    ts_modeling_workflow env df z t m nyp nyf true =
      ts_modeling_workflow env df z t m nyp nyf false := by
  rfl

/-- C10: whenever the post-fit stages succeed, packaging places into the
bundle the full future forecast frame, the ROI restricted to the last row
of the ROI frame only, and exactly two (summary, diagnostics) pairs — the
'train' entry from the train-only fit and the 'full' entry from the
full-series refit. -/
theorem bundle_contents (env : Env) (zv train test : Series)
    (auto : AutoModel) (bt : FittedModel) (nyf : Nat) (out : WorkflowOut)
    (h : (ts_workflow_post env zv train test auto bt nyf).1 = .ok out) :
    make_dict_package out =
      { forecasted_prices := out.forecast_full
        roi := out.roi_final
        model_metrics := [("train", out.summary_train, out.diag_train),
                          ("full", out.summary_full, out.diag_full)]
        model_visuals := [("train", out.training_frcst),
                          ("full", out.final_frcst)] } ∧
    (make_dict_package out).model_metrics.length = 2 ∧
    out.forecast_full ≠ [] ∧
    out.roi_final = (roiFrame out.forecast_full).getLastD ⟨0, 0, 0, 0⟩ ∧
    out.summary_train = env.summary bt ∧
    out.diag_train = env.diag bt ∧
    (∃ bf, env.fit (sarimax_fit_call (workflow_sarimax_args zv auto)) =
        .ok bf ∧
      out.summary_full = env.summary bf ∧ out.diag_full = env.diag bf) := by
  unfold ts_workflow_post model_performance at h
  simp only [forecast_and_ci] at h
  cases hfit : env.fit (sarimax_fit_call (workflow_sarimax_args zv auto)) with
  | error e => simp only [hfit] at h; simp at h
  | ok bf =>
    simp only [hfit] at h
    cases hl : get_forecast bf (12 * nyf) with
    | nil => simp only [hl] at h; simp at h
    | cons r0 rest =>
      simp only [hl] at h
      obtain rfl : out = _ := (Except.ok.inj h).symm
      exact ⟨rfl, rfl, by simp, rfl, rfl, rfl, ⟨bf, rfl, rfl, rfl⟩⟩

/-- The workflow-output value at the witness environment. -/
def exOut : WorkflowOut :=
  { forecast_full := get_forecast exModel 12
    roi_final := (roiFrame (get_forecast exModel 12)).getLastD ⟨0, 0, 0, 0⟩
    summary_train := "model summary"
    diag_train := "model diagnostics"
    summary_full := "model summary"
    diag_full := "model diagnostics"
    training_frcst := plot_forecast_ttf_fig
    final_frcst := plot_forecast_final_fig }

/-- Witness for C10 at a concrete environment where the post-fit stages
succeed. -/
theorem bundle_contents_witness :
    (ts_workflow_post exEnv [] [] [] exAm exModel 1).1 = .ok exOut ∧
    (make_dict_package exOut).model_metrics.length = 2 ∧
    exOut.roi_final = (roiFrame exOut.forecast_full).getLastD ⟨0, 0, 0, 0⟩ ∧
    exOut.forecast_full ≠ [] := by
  have hpost : (ts_workflow_post exEnv [] [] [] exAm exModel 1).1 =
      .ok exOut := rfl
  have h := bundle_contents exEnv [] [] [] exAm exModel 1 exOut hpost
  exact ⟨hpost, h.2.1, h.2.2.2.1, h.2.2.1⟩

end TSM
